import Mathlib

/-!
Shallow embedding of the realtime session/transport core of the
voice-assistant client (the `useWebRTCAudioSession` hook).

The hook keeps its mutable session state in React `useState` cells and
`useRef` cells.  We gather all of them in one record, `SessionState`,
and translate each operation of the hook into a pure function on that
record.  Resource handles (peer connection, data channel, audio context,
media stream, recorder, timers, analyser) are modelled as `Option`
values: `none` is a null ref, `some` carries the only piece of the
handle's state the hook ever inspects (e.g. the data channel's ready
state, the recorder's recording state).  Fresh UUIDs and timestamps are
modelled by counters (`nextId`, `nextTime`) threaded through the state.
-/

namespace SigaStudio

/-- Role of a conversation entry (`"user"` or `"assistant"` in the source). -/
inductive Role
  | user
  | assistant
deriving DecidableEq

/-- The free-form `status` lifecycle tag attached to conversation entries
(`"speaking"`, `"processing"`, `"final"` in the source). -/
inductive EStatus
  | speaking
  | processing
  | final
deriving DecidableEq

/-- One entry of the conversation log (the `Conversation` interface of the
source).  `id` models the uuid string, `timestamp` models the ISO
timestamp string; assistant partials carry no `status` field (`none`). -/
structure Conversation where
  id : Nat
  role : Role
  text : String
  timestamp : Nat
  isFinal : Bool
  status : Option EStatus
deriving DecidableEq

/-- Ready state of the RTC data channel; the hook only ever compares the
state against the string `"open"`. -/
inductive ChanState
  | connecting
  | opened
  | closing
  | closed
deriving DecidableEq

/-- State of the `MediaRecorder`; the hook compares it against
`"recording"` (in `handleDataChannelMessage`) and `"inactive"` (in
`stopSession`). -/
inductive RecState
  | inactive
  | recording
  | paused
deriving DecidableEq

/-- Inbound side-channel messages, by their `type` discriminator.
The payload fields kept are exactly the ones `handleDataChannelMessage`
reads: `delta` for assistant transcript deltas, `name`/`arguments`/
`call_id` for function calls. -/
inductive Msg
  | speechStarted
  | speechStopped
  | audioCommitted
  | inputTranscription
  | inputTranscriptionCompleted
  | responseDelta (delta : String)
  | responseDone
  | functionCallDone (name : String) (args : String) (callId : String)
  | unknown (tag : String)
deriving DecidableEq

/-- Outbound side-channel messages sent with `dataChannel.send`. -/
inductive OutMsg
  | conversationItemCreate (text : String)
  | responseCreate
  | functionCallOutput (callId : String) (output : String)
  | sessionUpdate
deriving DecidableEq

/-- All mutable state of the hook: the `useState` cells (`status`,
`isSessionActive`, `isMicMuted`, `msgs`, `conversation`,
`currentVolume`) and the `useRef` cells.  `audioIndicatorActive` models
whether the audio-indicator DOM node exists and, if so, whether it has
the `"active"` CSS class.  `nextId`/`nextTime` model the uuid and clock
sources. -/
structure SessionState where
  status : String
  isSessionActive : Bool
  isMicMuted : Bool
  msgs : List Msg
  conversation : List Conversation
  currentVolume : ℚ
  ephemeralUserMessageId : Option Nat
  audioChunks : List String
  dataChannel : Option ChanState
  peerConnection : Option Unit
  audioContext : Option Unit
  audioStream : Option Unit
  audioIndicatorActive : Option Bool
  mediaRecorder : Option RecState
  analyser : Option Unit
  volumeInterval : Option Nat
  timeout : Option Nat
  nextId : Nat
  nextTime : Nat
deriving DecidableEq

/-- The initial values of all `useState` and `useRef` cells, as declared
at the top of the hook (`useState("")`, `useState(false)`,
`useState<any[]>([])`, `useState<Conversation[]>([])`, `useState(0)`,
and all refs `null`). -/
def initState : SessionState :=
  { status := ""
    isSessionActive := false
    isMicMuted := false
    msgs := []
    conversation := []
    currentVolume := 0
    ephemeralUserMessageId := none
    audioChunks := []
    dataChannel := none
    peerConnection := none
    audioContext := none
    audioStream := none
    audioIndicatorActive := none
    mediaRecorder := none
    analyser := none
    volumeInterval := none
    timeout := none
    nextId := 0
    nextTime := 0 }

/-- `stopSession` of the source: each ref is released behind its own
null guard and then nulled (the recorder is additionally stopped only
when its state is not `"inactive"`, which only affects the external
recorder object, not the hook state); the audio-indicator node, if
present, loses its `"active"` class; then the chunk buffer and the
ephemeral-id ref are cleared, and the state cells are set:
volume `0`, active flag `false`, status `"Session stopped"`, raw
message log `[]`, conversation `[]`.  Note that `isMicMuted` is not
touched. -/
def stopSession (s : SessionState) : SessionState :=
  { s with
    dataChannel := none
    peerConnection := none
    audioContext := none
    audioStream := none
    audioIndicatorActive := s.audioIndicatorActive.map (fun _ => false)
    volumeInterval := none
    timeout := none
    mediaRecorder := none
    analyser := none
    audioChunks := []
    ephemeralUserMessageId := none
    currentVolume := 0
    isSessionActive := false
    status := "Session stopped"
    msgs := []
    conversation := [] }

/-- `updateEphemeralUserMessage` of the source: if no ephemeral-id is
outstanding this is a no-op; otherwise the partial update (here the
record-update function `f`, instantiated at each call site with exactly
the fields the source merges) is applied to every conversation entry
whose id equals the outstanding ephemeral id. -/
def updateEphemeralUserMessage (s : SessionState)
    (f : Conversation → Conversation) : SessionState :=
  match s.ephemeralUserMessageId with
  | none => s
  | some eid =>
      { s with conversation :=
          s.conversation.map (fun m => if m.id = eid then f m else m) }

/-- `getOrCreateEphemeralUserId` of the source (its returned id is
discarded by the one caller, so we return only the state): if an
ephemeral id is outstanding, nothing changes; otherwise a fresh id is
drawn, recorded in the ref, and a new non-final user entry with empty
text and status `speaking` is appended to the conversation. -/
def getOrCreateEphemeralUserId (s : SessionState) : SessionState :=
  match s.ephemeralUserMessageId with
  | some _ => s
  | none =>
      { s with
        ephemeralUserMessageId := some s.nextId
        conversation := s.conversation ++
          [{ id := s.nextId, role := Role.user, text := "",
             timestamp := s.nextTime, isFinal := false,
             status := some EStatus.speaking }]
        nextId := s.nextId + 1
        nextTime := s.nextTime + 1 }

/-- The `response.audio_transcript.delta` update passed to
`setConversation`: if the last entry exists and is a non-final assistant
entry, the delta is appended to its text (all other fields kept);
otherwise the freshly built `newMessage` is appended. -/
def deltaStep (delta : String) (newMessage : Conversation)
    (l : List Conversation) : List Conversation :=
  match l.getLast? with
  | some lastMsg =>
      if lastMsg.role = Role.assistant ∧ lastMsg.isFinal = false then
        l.dropLast ++ [{ lastMsg with text := lastMsg.text ++ delta }]
      else l ++ [newMessage]
  | none => l ++ [newMessage]

/-- The `response.audio_transcript.done` update passed to
`setConversation`: an empty log is returned unchanged, otherwise the
last entry (whatever its role) is marked final. -/
def doneStep (l : List Conversation) : List Conversation :=
  match l.getLast? with
  | some lastMsg => l.dropLast ++ [{ lastMsg with isFinal := true }]
  | none => l

/-- Environment a message-handling step runs in: the function registry
(`functionRegistry.current`; lookup by name, a registered handler
receives the raw `arguments` string — JSON-parsing the arguments and
running the handler are folded into one `Except`, whose `error` case
models a thrown exception), the secondary transcription client as a
total function of the consolidated audio (it never throws, see
`transcribeAudioWithGroq` below), and the chunks the recorder delivers
in response to `requestData()` during the settling delay. -/
structure Env where
  registry : List (String × (String → Except String String))
  transcribe : String → String
  flushedChunks : List String

/-- The partial update merged into the ephemeral entry on
`speech_started`: status `speaking`, placeholder text. -/
def speakingUpdate (c : Conversation) : Conversation :=
  { c with status := some EStatus.speaking, text := "Listening..." }

/-- The partial update merged into the ephemeral entry on
`speech_stopped`, before the settling delay: status `processing`,
placeholder text. -/
def processingUpdate (c : Conversation) : Conversation :=
  { c with status := some EStatus.processing, text := "Processing speech..." }

/-- The partial update merged into the ephemeral entry once the
secondary transcription returns: the transcript text, `isFinal` true,
status `final`. -/
def finalUpdate (transcript : String) (c : Conversation) : Conversation :=
  { c with text := transcript, isFinal := true, status := some EStatus.final }

/-- The `switch` body of `handleDataChannelMessage`, one inbound
message against the current state.  Returns the updated state, the
outbound messages sent, and the number of secondary-transcription
requests issued; `Except.error` models an exception escaping the switch
into the surrounding `try`/`catch` (only the function-call branch can
throw: `JSON.parse(msg.arguments)` or the awaited handler).  The
`speech_stopped` branch inlines the settling-delay callback: the flushed
chunks arrive, and the callback runs only when the recorder was
recording; sends inside it are guarded by the channel being open, while
the function-call branch uses optional chaining (`?.send`), guarded only
by channel presence. -/
def handleMsgCore (env : Env) (m : Msg) (s : SessionState) :
    Except String (SessionState × List OutMsg × Nat) :=
  match m with
  | Msg.speechStarted =>
      let s1 := getOrCreateEphemeralUserId s
      let s2 := updateEphemeralUserMessage s1 speakingUpdate
      Except.ok ({ s2 with audioChunks := [] }, [], 0)
  | Msg.speechStopped =>
      let s1 := updateEphemeralUserMessage s processingUpdate
      if s1.mediaRecorder = some RecState.recording then
        let s2 := { s1 with audioChunks := s1.audioChunks ++ env.flushedChunks }
        if s2.audioChunks.isEmpty then Except.ok (s2, [], 0)
        else
          let transcript := env.transcribe (String.join s2.audioChunks)
          let s3 := updateEphemeralUserMessage s2 (finalUpdate transcript)
          let s4 := { s3 with ephemeralUserMessageId := none, audioChunks := [] }
          let out := if s4.dataChannel = some ChanState.opened then
              [OutMsg.conversationItemCreate transcript, OutMsg.responseCreate]
            else []
          Except.ok (s4, out, 1)
      else Except.ok (s1, [], 0)
  | Msg.audioCommitted => Except.ok (s, [], 0)
  | Msg.inputTranscription => Except.ok (s, [], 0)
  | Msg.inputTranscriptionCompleted => Except.ok (s, [], 0)
  | Msg.responseDelta delta =>
      let newMessage : Conversation :=
        { id := s.nextId, role := Role.assistant, text := delta,
          timestamp := s.nextTime, isFinal := false, status := none }
      let s1 := { s with nextId := s.nextId + 1, nextTime := s.nextTime + 1 }
      Except.ok ({ s1 with conversation := deltaStep delta newMessage s1.conversation }, [], 0)
  | Msg.responseDone =>
      Except.ok ({ s with conversation := doneStep s.conversation }, [], 0)
  | Msg.functionCallDone name args callId =>
      match env.registry.lookup name with
      | none => Except.ok (s, [], 0)
      | some fn =>
          match fn args with
          | Except.error e => Except.error e
          | Except.ok result =>
              let out := if s.dataChannel.isSome then
                  [OutMsg.functionCallOutput callId result, OutMsg.responseCreate]
                else []
              Except.ok (s, out, 0)
  | Msg.unknown _ => Except.ok (s, [], 0)

/-- `handleDataChannelMessage` as a whole: the switch runs inside a
`try`/`catch`; on normal completion the raw message is appended to
`msgs` (`setMsgs`), on an exception the catch only logs, so the state is
left as it was when the exception was raised (the only throwing branch,
function-call dispatch, changes no state before throwing) and no
outbound message is sent. -/
def handleMsg (env : Env) (m : Msg) (s : SessionState) :
    SessionState × List OutMsg × Nat :=
  match handleMsgCore env m s with
  | Except.ok (s1, out, n) => ({ s1 with msgs := s1.msgs ++ [m] }, out, n)
  | Except.error _ => (s, [], 0)

/-- `sendTextMessage` of the source: if the data-channel ref is null or
its ready state is not `"open"`, log an error and return; otherwise
append a final user entry to the conversation and send the
`conversation.item.create` and `response.create` messages. -/
def sendTextMessage (s : SessionState) (text : String) :
    SessionState × List OutMsg :=
  if s.dataChannel = some ChanState.opened then
    ({ s with
        conversation := s.conversation ++
          [{ id := s.nextId, role := Role.user, text := text,
             timestamp := s.nextTime, isFinal := true,
             status := some EStatus.final }]
        nextId := s.nextId + 1
        nextTime := s.nextTime + 1 },
     [OutMsg.conversationItemCreate text, OutMsg.responseCreate])
  else (s, [])

/-- Process a sequence of inbound side-channel messages in arrival
order, keeping only the state. -/
def runMsgs (env : Env) (ms : List Msg) (s : SessionState) : SessionState :=
  ms.foldl (fun s m => (handleMsg env m s).1) s

/-- An operation delivered to the hook's single logical timeline:
either an inbound side-channel message or a UI-triggered text send. -/
inductive Op
  | msg (m : Msg)
  | sendText (t : String)

/-- Apply one operation to the session state. -/
def applyOp (env : Env) (o : Op) (s : SessionState) : SessionState :=
  match o with
  | Op.msg m => (handleMsg env m s).1
  | Op.sendText t => (sendTextMessage s t).1

/-- Run a sequence of operations in order. -/
def runOps (env : Env) (os : List Op) (s : SessionState) : SessionState :=
  os.foldl (fun s o => applyOp env o s) s

/-!
### Secondary Transcription Client (`transcribeAudioWithGroq`)

The audio payload is modelled by the two fields the function reads:
`size` and `type`.  Everything that can happen at the `fetch` to
`/api/transcribe-audio` is an input, `FetchOutcome`: the request itself
failing, a non-ok HTTP status, a body that is not JSON, or a parsed
JSON body whose `text` field is absent or present.
-/

/-- The audio blob, by the fields `transcribeAudioWithGroq` reads. -/
structure Blob where
  size : Nat
  type : String
deriving DecidableEq

/-- Outcome of the transcription request: `networkError` (fetch
rejected), `httpError` (`!response.ok`, with status and body text),
`jsonError` (`response.json()` threw), or `parsed` with the optional
`text` field of the JSON body. -/
inductive FetchOutcome
  | networkError
  | httpError (status : Nat) (body : String)
  | jsonError
  | parsed (text : Option String)
deriving DecidableEq

/-- Substring test, modelling JavaScript `String.includes`. -/
def strContains (s pat : String) : Bool :=
  (s.splitOn pat).length != 1

/-- Filename chosen for the multipart upload from the blob's MIME
type. -/
def groqFilename (blobType : String) : String :=
  if strContains blobType "mp4" then "audio.mp4"
  else if strContains blobType "mp3" then "audio.mp3"
  else if strContains blobType "wav" then "audio.wav"
  else "audio.webm"

/-- The `try` block of `transcribeAudioWithGroq`: a zero-size blob
returns the sentinel immediately (before any request); a fetch
rejection, a non-ok response (the source throws
`Failed to transcribe audio: ...` there) or an unparsable body raises;
a body with no `text` (absent, or empty and hence falsy) yields the
no-speech sentinel; otherwise the recognized text is returned. -/
def transcribeGroqBody (b : Blob) (f : FetchOutcome) : Except String String :=
  if b.size = 0 then Except.ok "No speech detected"
  else
    match f with
    | FetchOutcome.networkError => Except.error "fetch rejected"
    | FetchOutcome.httpError st body =>
        Except.error ("Failed to transcribe audio: " ++ toString st ++ " - " ++ body)
    | FetchOutcome.jsonError => Except.error "response body was not JSON"
    | FetchOutcome.parsed none => Except.ok "No speech detected"
    | FetchOutcome.parsed (some t) =>
        Except.ok (if t = "" then "No speech detected" else t)

/-- `transcribeAudioWithGroq` as its caller sees it: the whole body runs
in a `try`/`catch` whose catch returns the failure sentinel, so the
function is total — it never propagates an exception. -/
def transcribeAudioWithGroq (b : Blob) (f : FetchOutcome) : String :=
  match transcribeGroqBody b f with
  | Except.ok t => t
  | Except.error _ => "Transcription failed. Please try again."

/-- Whether `transcribeAudioWithGroq` issues a request to the
transcription collaborator: it does exactly when the blob is
non-empty (the zero-size path returns before building the form data). -/
def groqRequestIssued (b : Blob) : Bool :=
  b.size != 0

/-- Request failures and malformed responses: everything except a
parsed body carrying non-empty recognized text. -/
def fetchFailedOrMalformed (f : FetchOutcome) : Bool :=
  match f with
  | FetchOutcome.parsed (some t) => t == ""
  | _ => true

/-- The two user-facing sentinel strings of the transcription client. -/
def isSentinel (s : String) : Bool :=
  s == "No speech detected" || s == "Transcription failed. Please try again."

/-!
### Concrete states and environments used by the closed theorems
-/

/-- A concrete mid-session state: mic muted, session active, data
channel open. -/
def exStateC1 : SessionState :=
  { initState with
    isMicMuted := true
    isSessionActive := true
    status := "Session established successfully!"
    dataChannel := some ChanState.opened
    mediaRecorder := some RecState.recording
    currentVolume := 1 }

/-- A freshly established session: data channel open, recorder running,
conversation and logs empty — the state right after `startSession`
succeeds and the channel opens. -/
def exStateOpen : SessionState :=
  { initState with
    isSessionActive := true
    status := "Session established successfully!"
    dataChannel := some ChanState.opened
    mediaRecorder := some RecState.recording }

/-- An environment with no registered tools, a trivial transcription
oracle and no late-arriving chunks. -/
def envEmpty : Env :=
  { registry := [], transcribe := fun _ => "ok", flushedChunks := [] }

/-- A registered tool handler that throws on every invocation. -/
def throwingHandler : String → Except String String :=
  fun _ => Except.error "handler threw"

/-- An environment whose only registered tool, `generateImage`, throws
when invoked. -/
def envThrow : Env :=
  { registry := [("generateImage", throwingHandler)],
    transcribe := fun _ => "ok", flushedChunks := [] }

/-- The predicate of the C6 invariant, as a decidable scan: every entry
other than the tail entry satisfies "assistant implies final". -/
def entryOk (e : Conversation) : Bool :=
  !(e.role == Role.assistant) || e.isFinal

/-- Scanning the log, all non-tail assistant entries are final. -/
def allNonTailAssistantFinal (l : List Conversation) : Bool :=
  l.dropLast.all entryOk

/-- Whether a message is an assistant transcript delta or done event. -/
def deltaOrDone (m : Msg) : Bool :=
  match m with
  | Msg.responseDelta _ => true
  | Msg.responseDone => true
  | _ => false

/-- Whether the log's tail entry exists and is a non-final assistant
entry (the branch condition of the delta handler). -/
def nonFinalAssistantTail (l : List Conversation) : Bool :=
  match l.getLast? with
  | some e => e.role == Role.assistant && !e.isFinal
  | none => false

/-- Whether the log is empty or its tail entry is final. -/
def tailFinalOrAbsent (l : List Conversation) : Bool :=
  match l.getLast? with
  | some e => e.isFinal
  | none => true

/-- Whether the switch body completed without raising. -/
def handleCompletes (env : Env) (m : Msg) (s : SessionState) : Bool :=
  match handleMsgCore env m s with
  | Except.ok _ => true
  | Except.error _ => false

/-- A zero-size audio blob. -/
def blobZero : Blob :=
  { size := 0, type := "audio/webm" }

end SigaStudio

namespace SigaStudio

/-- C1: the claim as stated — after `stopSession`, every piece of
mutable session state equals its initial value — is false: `stopSession`
sets the status text to `"Session stopped"` (the initial value is `""`)
and leaves the mic-muted flag unchanged (here `true`, while its initial
value is `false`).  Witnessed at a concrete mid-session state. -/
theorem stopSession_not_full_reset :
    ¬ ((stopSession exStateC1).status = initState.status ∧
       (stopSession exStateC1).isSessionActive = initState.isSessionActive ∧
       (stopSession exStateC1).isMicMuted = initState.isMicMuted ∧
       (stopSession exStateC1).currentVolume = initState.currentVolume ∧
       (stopSession exStateC1).conversation = initState.conversation ∧
       (stopSession exStateC1).msgs = initState.msgs ∧
       (stopSession exStateC1).ephemeralUserMessageId = initState.ephemeralUserMessageId ∧
       (stopSession exStateC1).audioChunks = initState.audioChunks) := by
  decide

/-- C1 (amended): after `stopSession` returns, the active-session flag is
false, the current volume is zero, the conversation log, raw message log
and audio-chunk buffer are empty, and the ephemeral-id reference is
null; however the status text is set to `"Session stopped"` (not its
initial empty value) and the mic-muted flag is left unchanged (not reset
to false). -/
theorem stopSession_resets_state (s : SessionState) :
    (stopSession s).isSessionActive = false ∧
    (stopSession s).currentVolume = 0 ∧
    (stopSession s).conversation = [] ∧
    (stopSession s).msgs = [] ∧
    (stopSession s).ephemeralUserMessageId = none ∧
    (stopSession s).audioChunks = [] ∧
    (stopSession s).status = "Session stopped" ∧
    (stopSession s).isMicMuted = s.isMicMuted :=
  ⟨rfl, rfl, rfl, rfl, rfl, rfl, rfl, rfl⟩

/-- C2: `stopSession` is idempotent (and, being a total function of the
session state whose every resource release sits behind its own null
guard, it never throws, in particular on a never-opened or
already-closed session): closing twice in immediate succession leaves
exactly the state of closing once. -/
theorem stopSession_idempotent (s : SessionState) :
    stopSession (stopSession s) = stopSession s := by
  unfold stopSession
  cases h : s.audioIndicatorActive <;> simp

/-- C3: the transcription client is a total function of the blob and
the request outcome (the `try`/`catch` converts every raised error into
a sentinel): a zero-size payload yields `"No speech detected"` without
issuing any request, and every request failure or malformed response
(fetch rejection, non-ok status, non-JSON body, missing or empty `text`
field) yields one of the two user-facing sentinel strings. -/
theorem transcribe_total_and_sentinels (b : Blob) (f : FetchOutcome) :
    (b.size = 0 →
      transcribeAudioWithGroq b f = "No speech detected" ∧
      groqRequestIssued b = false) ∧
    (fetchFailedOrMalformed f = true →
      isSentinel (transcribeAudioWithGroq b f) = true) := by
  constructor
  · intro h
    constructor
    · simp [transcribeAudioWithGroq, transcribeGroqBody, h]
    · simp [groqRequestIssued, h]
  · intro hf
    by_cases hb : b.size = 0
    · simp [transcribeAudioWithGroq, transcribeGroqBody, hb, isSentinel]
    · cases f with
      | networkError =>
          simp [transcribeAudioWithGroq, transcribeGroqBody, hb, isSentinel]
      | httpError st body =>
          simp [transcribeAudioWithGroq, transcribeGroqBody, hb, isSentinel]
      | jsonError =>
          simp [transcribeAudioWithGroq, transcribeGroqBody, hb, isSentinel]
      | parsed t =>
          cases t with
          | none =>
              simp [transcribeAudioWithGroq, transcribeGroqBody, hb, isSentinel]
          | some txt =>
              have ht : txt = "" := by
                simpa [fetchFailedOrMalformed] using hf
              simp [transcribeAudioWithGroq, transcribeGroqBody, hb, ht, isSentinel]

/-- C3 witness: a zero-size blob against a failing request. -/
theorem transcribe_total_and_sentinels_witness :
    transcribeAudioWithGroq blobZero (FetchOutcome.httpError 500 "boom") = "No speech detected" ∧
    groqRequestIssued blobZero = false ∧
    isSentinel (transcribeAudioWithGroq blobZero (FetchOutcome.httpError 500 "boom")) = true := by
  have h := transcribe_total_and_sentinels blobZero (FetchOutcome.httpError 500 "boom")
  exact ⟨(h.1 rfl).1, (h.1 rfl).2, h.2 rfl⟩

/-- The ephemeral-entry updater never touches the raw message log. -/
theorem updateEphemeralUserMessage_msgs (s : SessionState)
    (f : Conversation → Conversation) :
    (updateEphemeralUserMessage s f).msgs = s.msgs := by
  cases h : s.ephemeralUserMessageId <;>
    simp [updateEphemeralUserMessage, h]

/-- Creating the ephemeral user entry never touches the raw message
log. -/
theorem getOrCreateEphemeralUserId_msgs (s : SessionState) :
    (getOrCreateEphemeralUserId s).msgs = s.msgs := by
  cases h : s.ephemeralUserMessageId <;>
    simp [getOrCreateEphemeralUserId, h]

/-- No branch of the switch body modifies the raw message log; only the
`setMsgs` call after the switch does. -/
theorem handleMsgCore_msgs (env : Env) (m : Msg) (s : SessionState)
    (r : SessionState × List OutMsg × Nat)
    (h : handleMsgCore env m s = Except.ok r) : r.1.msgs = s.msgs := by
  cases m with
  | speechStarted =>
      simp only [handleMsgCore] at h
      injection h with h1
      subst h1
      simp [updateEphemeralUserMessage_msgs, getOrCreateEphemeralUserId_msgs]
  | speechStopped =>
      simp only [handleMsgCore] at h
      split at h
      · split at h
        · injection h with h1
          subst h1
          simp [updateEphemeralUserMessage_msgs]
        · injection h with h1
          subst h1
          simp [updateEphemeralUserMessage_msgs]
      · injection h with h1
        subst h1
        simp [updateEphemeralUserMessage_msgs]
  | audioCommitted =>
      simp only [handleMsgCore] at h
      injection h with h1
      subst h1
      rfl
  | inputTranscription =>
      simp only [handleMsgCore] at h
      injection h with h1
      subst h1
      rfl
  | inputTranscriptionCompleted =>
      simp only [handleMsgCore] at h
      injection h with h1
      subst h1
      rfl
  | responseDelta delta =>
      simp only [handleMsgCore] at h
      injection h with h1
      subst h1
      rfl
  | responseDone =>
      simp only [handleMsgCore] at h
      injection h with h1
      subst h1
      rfl
  | functionCallDone name args callId =>
      simp only [handleMsgCore] at h
      split at h
      · injection h with h1
        subst h1
        rfl
      · split at h
        · exact absurd h (by simp)
        · injection h with h1
          subst h1
          rfl
  | unknown tag =>
      simp only [handleMsgCore] at h
      injection h with h1
      subst h1
      rfl

/-- The ephemeral-entry updater never touches the chunk buffer. -/
theorem updateEphemeralUserMessage_audioChunks (s : SessionState)
    (f : Conversation → Conversation) :
    (updateEphemeralUserMessage s f).audioChunks = s.audioChunks := by
  cases h : s.ephemeralUserMessageId <;>
    simp [updateEphemeralUserMessage, h]

/-- The ephemeral-entry updater never touches the recorder ref. -/
theorem updateEphemeralUserMessage_mediaRecorder (s : SessionState)
    (f : Conversation → Conversation) :
    (updateEphemeralUserMessage s f).mediaRecorder = s.mediaRecorder := by
  cases h : s.ephemeralUserMessageId <;>
    simp [updateEphemeralUserMessage, h]

/-- An ephemeral update whose merge does not set `isFinal` leaves every
entry's `isFinal` flag as it was. -/
theorem updateEphemeralUserMessage_isFinal_map (s : SessionState)
    (f : Conversation → Conversation)
    (hf : ∀ c, (f c).isFinal = c.isFinal) :
    (updateEphemeralUserMessage s f).conversation.map (fun c => c.isFinal) =
      s.conversation.map (fun c => c.isFinal) := by
  cases h : s.ephemeralUserMessageId with
  | none => simp [updateEphemeralUserMessage, h]
  | some eid =>
      simp only [updateEphemeralUserMessage, h, List.map_map]
      have : ((fun c : Conversation => c.isFinal) ∘
          fun c => if c.id = eid then f c else c) =
          fun c : Conversation => c.isFinal := by
        funext c
        by_cases hc : c.id = eid <;> simp [hc, hf]
      rw [this]

/-- The ephemeral-entry updater preserves the conversation length. -/
theorem updateEphemeralUserMessage_length (s : SessionState)
    (f : Conversation → Conversation) :
    (updateEphemeralUserMessage s f).conversation.length =
      s.conversation.length := by
  cases h : s.ephemeralUserMessageId <;>
    simp [updateEphemeralUserMessage, h]

/-- With an empty buffer after the settling delay, the `speech_stopped`
switch body only performs the `processing` placeholder update: no
transcription, no outbound sends. -/
theorem speechStopped_core_of_empty (env : Env) (s : SessionState)
    (hs : s.audioChunks = []) (hfl : env.flushedChunks = []) :
    handleMsgCore env Msg.speechStopped s =
      Except.ok (updateEphemeralUserMessage s processingUpdate, [], 0) := by
  have h2 : (updateEphemeralUserMessage s processingUpdate).audioChunks = [] := by
    rw [updateEphemeralUserMessage_audioChunks, hs]
  have h1 : (updateEphemeralUserMessage s processingUpdate).audioChunks ++
      env.flushedChunks = [] := by
    rw [h2, hfl]
    rfl
  simp only [handleMsgCore]
  split
  · rw [h1]
    simp only [List.isEmpty_nil, if_true]
    rw [← h2]
  · rfl

/-- C4: when the audio-chunk buffer is still empty after the settling
delay (no chunk was buffered before the turn ended and none arrived
from the forced flush), handling `speech_stopped` issues no secondary
transcription request, sends nothing outbound, appends no conversation
entry, and flips no entry's `isFinal` flag — so no new final transcript
text is written for that turn. -/
theorem empty_buffer_no_transcription (env : Env) (s : SessionState)
    (h : s.audioChunks ++ env.flushedChunks = []) :
    (handleMsg env Msg.speechStopped s).2.2 = 0 ∧
    (handleMsg env Msg.speechStopped s).2.1 = [] ∧
    (handleMsg env Msg.speechStopped s).1.conversation.map (fun c => c.isFinal) =
      s.conversation.map (fun c => c.isFinal) ∧
    (handleMsg env Msg.speechStopped s).1.conversation.length =
      s.conversation.length := by
  have hs : s.audioChunks = [] := (List.append_eq_nil.mp h).1
  have hfl : env.flushedChunks = [] := (List.append_eq_nil.mp h).2
  have hcore := speechStopped_core_of_empty env s hs hfl
  simp only [handleMsg, hcore]
  refine ⟨trivial, trivial, ?_, ?_⟩
  · exact updateEphemeralUserMessage_isFinal_map s processingUpdate (fun _ => rfl)
  · exact updateEphemeralUserMessage_length s processingUpdate

/-- C4 witness: a freshly opened session with an empty buffer and no
late chunks. -/
theorem empty_buffer_no_transcription_witness :
    (handleMsg envEmpty Msg.speechStopped exStateOpen).2.2 = 0 ∧
    (handleMsg envEmpty Msg.speechStopped exStateOpen).2.1 = [] := by
  have h := empty_buffer_no_transcription envEmpty exStateOpen rfl
  exact ⟨h.1, h.2.1⟩

/-- C9 (amended): every inbound message whose handling completes
without an exception — that is, every message except a function-call
message whose argument parsing or registered handler throws — is
appended, exactly once and verbatim, to the raw message log. -/
theorem raw_log_appends_on_completion (env : Env) (m : Msg) (s : SessionState)
    (h : handleCompletes env m s = true) :
    (handleMsg env m s).1.msgs = s.msgs ++ [m] := by
  unfold handleCompletes at h
  unfold handleMsg
  cases hc : handleMsgCore env m s with
  | error e =>
      rw [hc] at h
      simp at h
  | ok r =>
      obtain ⟨s1, out, n⟩ := r
      have hm := handleMsgCore_msgs env m s (s1, out, n) hc
      simp only at hm
      simp [hm]

/-- C9 witness: an unrecognized tag is appended to the raw message
log. -/
theorem raw_log_appends_on_completion_witness :
    (handleMsg envEmpty (Msg.unknown "rate_limits.updated") exStateOpen).1.msgs =
      exStateOpen.msgs ++ [Msg.unknown "rate_limits.updated"] :=
  raw_log_appends_on_completion envEmpty (Msg.unknown "rate_limits.updated")
    exStateOpen rfl

/-- C9 counterexample: a function-call message whose registered handler
throws is not appended to the raw message log (the exception skips the
`setMsgs` call), so "every inbound message, regardless of tag, is
appended" is false as stated. -/
theorem raw_log_misses_throwing_dispatch :
    (handleMsg envThrow
        (Msg.functionCallDone "generateImage" "bad args" "call-2") exStateC1).1.msgs ≠
      exStateC1.msgs ++ [Msg.functionCallDone "generateImage" "bad args" "call-2"] := by
  decide

/-- C7: a `function_call_arguments.done` event naming a tool with no
registered handler is a silent no-op apart from the diagnostic raw-log
append: no `function_call_output`, no `response.create`, no exception,
no transcription request, and every other piece of state — in
particular the conversation log — unchanged. -/
theorem unregistered_tool_silent_noop (env : Env) (s : SessionState)
    (name args callId : String)
    (h : env.registry.lookup name = none) :
    handleMsg env (Msg.functionCallDone name args callId) s =
      ({ s with msgs := s.msgs ++ [Msg.functionCallDone name args callId] }, [], 0) := by
  simp [handleMsg, handleMsgCore, h]

/-- C7 witness: dispatching `navigateTo` against an empty registry. -/
theorem unregistered_tool_silent_noop_witness :
    handleMsg envEmpty (Msg.functionCallDone "navigateTo" "args" "call-7") exStateOpen =
      ({ exStateOpen with
          msgs := exStateOpen.msgs ++ [Msg.functionCallDone "navigateTo" "args" "call-7"] },
       [], 0) :=
  unregistered_tool_silent_noop envEmpty exStateOpen "navigateTo" "args" "call-7" rfl

/-- C8: the claim describes the intended contract (spec §4.5/§7), but
the code does not implement it: when the registered handler for
`generateImage` throws, the exception is caught only by the outer
`try`/`catch` of `handleDataChannelMessage`, which merely logs — no
`function_call_output` carrying a structured error and no
`response.create` are sent to the remote endpoint (the session state is
left untouched, the raw message is not even logged). -/
theorem throwing_tool_handler_sends_no_output :
    handleMsg envThrow
        (Msg.functionCallDone "generateImage" "bad args" "call-1") exStateOpen =
      (exStateOpen, [], 0) := by
  decide

/-- C10: for every text, when the data-channel ref is null or the
channel is in any non-open ready state, `sendTextMessage` returns
immediately: the conversation log is unchanged (no entry appended), no
outbound message is sent, and the whole state is untouched. -/
theorem sendTextMessage_noop_when_channel_not_open (s : SessionState)
    (text : String) (h : s.dataChannel ≠ some ChanState.opened) :
    sendTextMessage s text = (s, []) := by
  simp [sendTextMessage, h]

/-- C10 witness: sending on the initial state, whose channel ref is
null. -/
theorem sendTextMessage_noop_witness :
    sendTextMessage initState "hello" = (initState, []) :=
  sendTextMessage_noop_when_channel_not_open initState "hello" (by decide)

/-- A delta on an empty log starts a new assistant partial. -/
theorem deltaStep_nil (d : String) (new : Conversation) :
    deltaStep d new [] = [new] := rfl

/-- A delta with a non-final assistant tail appends to that tail's
text. -/
theorem deltaStep_concat_nonfinal (d : String) (new e : Conversation)
    (l : List Conversation) (h1 : e.role = Role.assistant)
    (h2 : e.isFinal = false) :
    deltaStep d new (l ++ [e]) = l ++ [{ e with text := e.text ++ d }] := by
  simp [deltaStep, List.getLast?_concat, List.dropLast_concat, h1, h2]

/-- A delta with any other tail starts a new assistant partial. -/
theorem deltaStep_concat_other (d : String) (new e : Conversation)
    (l : List Conversation)
    (h : ¬(e.role = Role.assistant ∧ e.isFinal = false)) :
    deltaStep d new (l ++ [e]) = (l ++ [e]) ++ [new] := by
  simp only [deltaStep, List.getLast?_concat]
  rw [if_neg h]

/-- `done` on a non-empty log marks the tail entry final. -/
theorem doneStep_concat (e : Conversation) (l : List Conversation) :
    doneStep (l ++ [e]) = l ++ [{ e with isFinal := true }] := by
  simp [doneStep, List.getLast?_concat, List.dropLast_concat]

/-- If the log is empty or its tail is not a non-final assistant entry,
a delta appends a fresh entry. -/
theorem deltaStep_of_not_nonfinal (d : String) (new : Conversation)
    (l : List Conversation) (h : nonFinalAssistantTail l = false) :
    deltaStep d new l = l ++ [new] := by
  cases hl : l.getLast? with
  | none => simp [deltaStep, hl]
  | some e =>
      have hcond : ¬(e.role = Role.assistant ∧ e.isFinal = false) := by
        rintro ⟨ha, hb⟩
        simp only [nonFinalAssistantTail, hl, ha, hb] at h
        simp at h
      simp only [deltaStep, hl]
      rw [if_neg hcond]

/-- A final (or absent) tail is in particular not a non-final assistant
tail. -/
theorem nonFinalAssistantTail_false_of_tailFinal (l : List Conversation)
    (h : tailFinalOrAbsent l = true) :
    nonFinalAssistantTail l = false := by
  cases hl : l.getLast? with
  | none => simp [nonFinalAssistantTail, hl]
  | some e =>
      simp only [tailFinalOrAbsent, hl] at h
      simp [nonFinalAssistantTail, hl, h]

/-- The state after handling an assistant transcript delta: the
conversation is updated by `deltaStep` with a freshly built entry, the
uuid and clock sources advance, and the raw message is logged. -/
theorem handleMsg_delta_state (env : Env) (d : String) (s : SessionState) :
    (handleMsg env (Msg.responseDelta d) s).1 =
      { s with
        conversation := deltaStep d
          { id := s.nextId, role := Role.assistant, text := d,
            timestamp := s.nextTime, isFinal := false, status := none }
          s.conversation
        nextId := s.nextId + 1
        nextTime := s.nextTime + 1
        msgs := s.msgs ++ [Msg.responseDelta d] } := rfl

/-- The state after handling an assistant transcript done event. -/
theorem handleMsg_done_state (env : Env) (s : SessionState) :
    (handleMsg env Msg.responseDone s).1 =
      { s with
        conversation := doneStep s.conversation
        msgs := s.msgs ++ [Msg.responseDone] } := rfl

/-- C5: an assistant transcript delta appends its text to the tail
entry when that tail is a non-final assistant entry, and otherwise
appends a new non-final assistant entry carrying the delta; and from
any log whose tail is final or absent, the deltas `"Hel"`, `"lo"`,
`" there"` followed by a `done` event produce exactly one new
conversation entry, final, with text `"Hello there"`. -/
theorem assistant_delta_append_and_scenario (env : Env) (s : SessionState)
    (d : String) :
    (∀ l e, s.conversation = l ++ [e] → e.role = Role.assistant →
      e.isFinal = false →
      (handleMsg env (Msg.responseDelta d) s).1.conversation =
        l ++ [{ e with text := e.text ++ d }]) ∧
    (nonFinalAssistantTail s.conversation = false →
      (handleMsg env (Msg.responseDelta d) s).1.conversation =
        s.conversation ++
          [{ id := s.nextId, role := Role.assistant, text := d,
             timestamp := s.nextTime, isFinal := false, status := none }]) ∧
    (tailFinalOrAbsent s.conversation = true →
      (runMsgs env [Msg.responseDelta "Hel", Msg.responseDelta "lo",
          Msg.responseDelta " there", Msg.responseDone] s).conversation =
        s.conversation ++
          [{ id := s.nextId, role := Role.assistant, text := "Hello there",
             timestamp := s.nextTime, isFinal := true, status := none }]) := by
  refine ⟨?_, ?_, ?_⟩
  · intro l e hle ha hf
    simp only [handleMsg_delta_state]
    rw [hle, deltaStep_concat_nonfinal d _ e l ha hf]
  · intro h1
    simp only [handleMsg_delta_state]
    rw [deltaStep_of_not_nonfinal _ _ _ h1]
  · intro h
    have h0 := nonFinalAssistantTail_false_of_tailFinal _ h
    simp only [runMsgs, List.foldl, handleMsg_delta_state, handleMsg_done_state]
    rw [deltaStep_of_not_nonfinal _ _ _ h0]
    rw [deltaStep_concat_nonfinal _ _ _ _ rfl rfl]
    rw [deltaStep_concat_nonfinal _ _ _ _ rfl rfl]
    rw [doneStep_concat]
    rfl

/-- C5 witness: appending `"!"` to a non-final assistant tail at one
concrete state, and the full `"Hello there"` scenario from a concrete
state with an empty log. -/
theorem assistant_delta_append_and_scenario_witness :
    (handleMsg envEmpty (Msg.responseDelta "!")
        { exStateOpen with conversation :=
            [{ id := 5, role := Role.assistant, text := "Hi",
               timestamp := 3, isFinal := false, status := none }] }).1.conversation =
      [{ id := 5, role := Role.assistant, text := "Hi!",
         timestamp := 3, isFinal := false, status := none }] ∧
    (runMsgs envEmpty [Msg.responseDelta "Hel", Msg.responseDelta "lo",
        Msg.responseDelta " there", Msg.responseDone] exStateOpen).conversation =
      [{ id := 0, role := Role.assistant, text := "Hello there",
         timestamp := 0, isFinal := true, status := none }] := by
  constructor
  · exact (assistant_delta_append_and_scenario envEmpty _ "!").1 []
      { id := 5, role := Role.assistant, text := "Hi",
        timestamp := 3, isFinal := false, status := none } rfl rfl rfl
  · exact (assistant_delta_append_and_scenario envEmpty exStateOpen "x").2.2 rfl

/-- A tail that is not a non-final assistant entry satisfies the
invariant's per-entry predicate. -/
theorem entryOk_of_not_nonfinal (e : Conversation)
    (h : ¬(e.role = Role.assistant ∧ e.isFinal = false)) :
    entryOk e = true := by
  unfold entryOk
  by_cases ha : e.role = Role.assistant
  · cases hb : e.isFinal
    · exact absurd ⟨ha, hb⟩ h
    · simp [hb]
  · simp [ha]

/-- A delta update preserves "all non-tail assistant entries are
final". -/
theorem deltaStep_preserves_invariant (d : String) (new : Conversation)
    (l : List Conversation)
    (h : allNonTailAssistantFinal l = true) :
    allNonTailAssistantFinal (deltaStep d new l) = true := by
  rcases l.eq_nil_or_concat' with rfl | ⟨L, e, rfl⟩
  · rw [deltaStep_nil]
    rfl
  · by_cases hc : e.role = Role.assistant ∧ e.isFinal = false
    · rw [deltaStep_concat_nonfinal _ _ _ _ hc.1 hc.2]
      rw [allNonTailAssistantFinal, List.dropLast_concat]
      rw [allNonTailAssistantFinal, List.dropLast_concat] at h
      exact h
    · rw [deltaStep_concat_other _ _ _ _ hc]
      rw [allNonTailAssistantFinal, List.dropLast_concat]
      rw [allNonTailAssistantFinal, List.dropLast_concat] at h
      rw [List.all_append]
      simp [h, entryOk_of_not_nonfinal e hc]

/-- A done update preserves "all non-tail assistant entries are
final". -/
theorem doneStep_preserves_invariant (l : List Conversation)
    (h : allNonTailAssistantFinal l = true) :
    allNonTailAssistantFinal (doneStep l) = true := by
  rcases l.eq_nil_or_concat' with rfl | ⟨L, e, rfl⟩
  · exact h
  · rw [doneStep_concat]
    rw [allNonTailAssistantFinal, List.dropLast_concat]
    rw [allNonTailAssistantFinal, List.dropLast_concat] at h
    exact h

/-- Handling one delta or done event preserves the invariant. -/
theorem handleMsg_deltaOrDone_preserves (env : Env) (m : Msg)
    (s : SessionState) (hm : deltaOrDone m = true)
    (h : allNonTailAssistantFinal s.conversation = true) :
    allNonTailAssistantFinal (handleMsg env m s).1.conversation = true := by
  cases m <;> simp only [deltaOrDone] at hm
  case responseDelta d =>
    simp only [handleMsg_delta_state]
    exact deltaStep_preserves_invariant _ _ _ h
  case responseDone =>
    simp only [handleMsg_done_state]
    exact doneStep_preserves_invariant _ h
  all_goals exact absurd hm (by simp)

/-- C6 (amended): "scanning the log, every non-tail assistant entry is
final" is an invariant of the assistant transcript delta and done
events: it is preserved by any sequence of those.  It is not an
invariant of the full operation set — appending a user entry
(`speech_started`, `sendTextMessage`) while an assistant partial sits at
the tail buries that non-final assistant entry in a non-tail position
(see the counterexample). -/
theorem nontail_assistant_final_delta_done (env : Env) (ms : List Msg)
    (s : SessionState)
    (hms : ∀ m ∈ ms, deltaOrDone m = true)
    (h : allNonTailAssistantFinal s.conversation = true) :
    allNonTailAssistantFinal (runMsgs env ms s).conversation = true := by
  induction ms generalizing s with
  | nil => exact h
  | cons m ms ih =>
      have hstep := handleMsg_deltaOrDone_preserves env m s
        (hms m (List.mem_cons_self m ms)) h
      exact ih (handleMsg env m s).1
        (fun m' hm' => hms m' (List.mem_cons_of_mem m hm')) hstep

/-- C6 amended witness: a concrete delta/done/delta sequence on a
concrete state. -/
theorem nontail_assistant_final_delta_done_witness :
    allNonTailAssistantFinal (runMsgs envEmpty
      [Msg.responseDelta "a", Msg.responseDone, Msg.responseDelta "b"]
      exStateC1).conversation = true :=
  nontail_assistant_final_delta_done envEmpty
    [Msg.responseDelta "a", Msg.responseDone, Msg.responseDelta "b"]
    exStateC1 (by decide) rfl

/-- C6 counterexample: from a freshly opened session, an assistant
delta followed by a UI text send yields a reachable conversation log
whose first entry is a non-tail assistant entry with `isFinal = false` —
the claimed invariant over all event-handler and UI operations is
false. -/
theorem nontail_assistant_invariant_fails :
    allNonTailAssistantFinal
      (runOps envEmpty
        [Op.msg (Msg.responseDelta "Sure, "), Op.sendText "wait"]
        exStateOpen).conversation = false := by
  decide

end SigaStudio
